import Mathlib

/-!
Verification development for the ticketing flow-control core
(goorm-gongbang/201-goormgb-ai).

The Lean definitions below are a shallow embedding of the Python source:

 - namespace `Attack`  embeds `src/traffic_master_ai/attack/a0_poc/`
   (states.py, events.py, snapshots.py, transition.py, orchestrator.py,
   failure.py);
 - namespace `Defense` embeds `src/traffic_master_ai/defense/d0_poc/`
   (core/states.py, core/models.py, policy/snapshot.py, signals/events.py,
   orchestrator/engine.py, brain/evidence.py, brain/risk_engine.py,
   brain/planner.py).

Python string-keyed dicts are modelled as association lists with
last-write-wins lookup; Python ints as `Int`; optional values as `Option`.
Human-readable note strings from the source are abbreviated to short English
tags (the originals are Korean); no theorem depends on note text.
-/

namespace Attack

/-- Flow states from attack/a0_poc/states.py (enum State). -/
inductive State where
  | s0Init
  | s1PreEntry
  | s2QueueEntry
  | s3Security
  | s4Section
  | s5Seat
  | s6Transaction
  | sxTerminal
  deriving DecidableEq, Repr

/-- State.is_terminal from states.py. -/
def State.is_terminal : State → Bool
  | .sxTerminal => true
  | _ => false

/-- State.is_security from states.py. -/
def State.is_security : State → Bool
  | .s3Security => true
  | _ => false

/-- State.can_be_last_non_security from states.py:
membership in the set of S1, S2, S4, S5, S6. -/
def State.can_be_last_non_security : State → Bool
  | .s1PreEntry => true
  | .s2QueueEntry => true
  | .s4Section => true
  | .s5Seat => true
  | .s6Transaction => true
  | _ => false

/-- Terminal reasons from attack/a0_poc/states.py (enum TerminalReason,
lowercase values done, abort, cooldown, reset). -/
inductive TerminalReason where
  | done
  | abort
  | cooldown
  | reset
  deriving DecidableEq, Repr

/-- SemanticEvent from attack/a0_poc/events.py: a frozen slots dataclass with
fields event_type, stage, failure_code, context. The opaque context map is not
modelled (no transition reads it). Note the field is named event_type; there is
no attribute named type on this dataclass. -/
structure SemanticEvent where
  event_type : String
  stage : Option State := none
  failure_code : Option String := none
  deriving DecidableEq, Repr

/-- Lookup with default over a string-keyed map, as Python dict.get(k, d). -/
def dictGet (m : List (String × Int)) (k : String) (d : Int) : Int :=
  match m.find? (fun p => p.1 == k) with
  | some p => p.2
  | none => d

/-- StateSnapshot from attack/a0_poc/snapshots.py. budgets and counters are
string-keyed int maps. The StateStore of store.py is a thin mutable wrapper
around one StateSnapshot; the orchestrator embedding below threads the
snapshot explicitly instead. -/
structure StateSnapshot where
  current_state : State
  last_non_security_state : Option State := none
  budgets : List (String × Int) := []
  counters : List (String × Int) := []
  elapsed_ms : Int := 0
  deriving DecidableEq, Repr

/-- A value in the rules dict of PolicySnapshot (dict of str to Any in the
source; the rules consulted by the transition function are ints, for example
N_challenge, or strings, for example challenge_fail_policy). -/
inductive PolicyVal where
  | intVal (n : Int)
  | strVal (s : String)
  deriving DecidableEq, Repr

/-- PolicySnapshot from attack/a0_poc/snapshots.py: profile_name plus a rules
dict. -/
structure PolicySnapshot where
  profile_name : String
  rules : List (String × PolicyVal) := []
  deriving DecidableEq, Repr

/-- rules.get(key, default) where the code uses the value as an int.
A string-typed value under an int rule key is a configuration type error
(a Python TypeError at the comparison site); it is mapped to the default here
and is exercised by no claim. -/
def PolicySnapshot.getIntRule (p : PolicySnapshot) (k : String) (d : Int) : Int :=
  match p.rules.find? (fun q => q.1 == k) with
  | some ⟨_, .intVal n⟩ => n
  | _ => d

/-- rules.get(key, default) where the code uses the value as a string. -/
def PolicySnapshot.getStrRule (p : PolicySnapshot) (k : String) (d : String) : String :=
  match p.rules.find? (fun q => q.1 == k) with
  | some ⟨_, .strVal s⟩ => s
  | _ => d

/-- TransitionResult from attack/a0_poc/transition.py. The commands field
(list of opaque dicts) is never populated by any code path and is omitted. -/
structure TransitionResult where
  next_state : State
  terminal_reason : Option TerminalReason := none
  failure_code : Option String := none
  notes : List String := []
  deriving DecidableEq, Repr

/-- The invariant enforced by TransitionResult.__post_init__:
terminal_reason is present exactly when next_state is SX. -/
def TransitionResult.terminalConsistent (r : TransitionResult) : Prop :=
  r.next_state = State.sxTerminal ↔ r.terminal_reason.isSome

instance (r : TransitionResult) : Decidable r.terminalConsistent := by
  unfold TransitionResult.terminalConsistent; infer_instance

/-- TransitionResult construction including the __post_init__ contract check:
raising ValueError is modelled as Except.error. -/
def mkTransitionResult (next_state : State) (terminal_reason : Option TerminalReason)
    (failure_code : Option String) (notes : List String) :
    Except String TransitionResult :=
  if next_state.is_terminal && terminal_reason.isNone then
    .error "terminal_reason required when next_state is SX_TERMINAL"
  else if !next_state.is_terminal && terminal_reason.isSome then
    .error "terminal_reason must be None for a non-terminal state"
  else
    .ok ⟨next_state, terminal_reason, failure_code, notes⟩

/-- Handler for S0 (transition.py, _handle_s0_transition). -/
def handleS0Transition (event : SemanticEvent) (_snapshot : StateSnapshot)
    (_policy : PolicySnapshot) : TransitionResult :=
  let et := event.event_type
  if et == "BOOTSTRAP_COMPLETE" || et == "FLOW_START" then
    { next_state := .s1PreEntry, notes := ["bootstrap complete"] }
  else
    { next_state := .s0Init, notes := ["invalid event in S0 ignored"] }

/-- Handler for S1 (transition.py, _handle_s1_transition). -/
def handleS1Transition (event : SemanticEvent) (_snapshot : StateSnapshot)
    (_policy : PolicySnapshot) : TransitionResult :=
  let et := event.event_type
  if et == "ENTRY_ENABLED" then
    { next_state := .s2QueueEntry, notes := ["entry enabled"] }
  else
    { next_state := .s1PreEntry, notes := ["invalid event in S1 ignored"] }

/-- Handler for S2 (transition.py, _handle_s2_transition). -/
def handleS2Transition (event : SemanticEvent) (_snapshot : StateSnapshot)
    (_policy : PolicySnapshot) : TransitionResult :=
  let et := event.event_type
  if et == "QUEUE_PASSED" then
    { next_state := .s4Section, notes := ["queue passed"] }
  else if et == "CHALLENGE_NOT_PRESENT" || et == "SECTION_LIST_READY"
      || et == "QUEUE_SHOWN" || et == "POPUP_OPENED" then
    { next_state := .s4Section, notes := ["queue next step"] }
  else if et == "SECTION_SELECTED" || et == "SECTION_LIST_READY" then
    { next_state := .s4Section, notes := ["direct selection from queue"] }
  else if et == "SEAT_SELECTED" || et == "HOLD_ACQUIRED" || et == "HOLD_CONFIRMED" then
    { next_state := .s5Seat, notes := ["direct seat or hold from queue"] }
  else if et == "PAYMENT_COMPLETE" || et == "PAYMENT_COMPLETED" then
    { next_state := .sxTerminal, terminal_reason := some .done,
      notes := ["immediate payment from queue"] }
  else
    { next_state := .s2QueueEntry, notes := ["invalid event in S2 ignored"] }

/-- Handler for S3 (transition.py, _handle_s3_transition). -/
def handleS3Transition (event : SemanticEvent) (state_snapshot : StateSnapshot)
    (policy_snapshot : PolicySnapshot) : TransitionResult :=
  let et := event.event_type
  if et == "CHALLENGE_PASSED" || et == "CHALLENGE_NOT_PRESENT" then
    match state_snapshot.last_non_security_state with
    | some return_to =>
        { next_state := return_to, notes := ["challenge cleared, return"] }
    | none =>
        { next_state := .s1PreEntry,
          notes := ["challenge cleared, no last_non_security_state, S1"] }
  else if et == "CHALLENGE_FAILED" then
    let challenge_limit := policy_snapshot.getIntRule "N_challenge" 1
    let fail_count := dictGet state_snapshot.counters "CHALLENGE_FAILED" 0 + 1
    if fail_count < challenge_limit then
      { next_state := .s3Security, notes := ["challenge failed, retry in S3"] }
    else
      let reason_str := policy_snapshot.getStrRule "challenge_fail_policy" "abort"
      let reason : TerminalReason :=
        if reason_str == "cooldown" then .cooldown
        else if reason_str == "reset" then .reset
        else .abort
      { next_state := .sxTerminal, terminal_reason := some reason,
        failure_code := some "CHALLENGE_BUDGET_EXHAUSTED",
        notes := ["challenge budget exhausted"] }
  else if et == "CHALLENGE_APPEARED" then
    { next_state := .s3Security, notes := ["challenge appeared, stay S3"] }
  else
    { next_state := .s3Security, notes := ["invalid event in S3 ignored"] }

/-- Handler for S4 (transition.py, _handle_s4_transition). -/
def handleS4Transition (event : SemanticEvent) (state_snapshot : StateSnapshot)
    (policy_snapshot : PolicySnapshot) : TransitionResult :=
  let et := event.event_type
  if et == "SECTION_SELECTED" then
    { next_state := .s5Seat, notes := ["section selected"] }
  else if et == "SEAT_SELECTED" || et == "HOLD_ACQUIRED" || et == "HOLD_CONFIRMED"
      || et == "PAYMENT_PAGE_ENTERED" then
    { next_state := .s6Transaction, notes := ["direct seat or hold or payment from S4"] }
  else if et == "PAYMENT_COMPLETE" || et == "PAYMENT_COMPLETED" then
    { next_state := .sxTerminal, terminal_reason := some .done,
      notes := ["immediate payment from S4"] }
  else if et == "VIEW_SECTION" || et == "CHALLENGE_APPEARED" || et == "SECTION_LIST_READY" then
    { next_state := .s4Section, notes := ["informational event, stay S4"] }
  else if et == "SECTION_EMPTY" then
    let section_limit := policy_snapshot.getIntRule "N_section" 1
    let empty_count := dictGet state_snapshot.counters "SECTION_EMPTY" 0 + 1
    if empty_count < section_limit then
      { next_state := .s4Section, notes := ["section empty, retry in S4"] }
    else
      let reason_str := policy_snapshot.getStrRule "section_empty_policy" "abort"
      if reason_str == "abort" then
        { next_state := .sxTerminal, terminal_reason := some .abort,
          failure_code := some "SECTION_BUDGET_EXHAUSTED",
          notes := ["section budget exhausted, abort"] }
      else
        { next_state := .s4Section, notes := ["section budget exhausted, wait in S4"] }
  else
    { next_state := .s4Section, notes := ["invalid event in S4 ignored"] }

/-- Handler for S5 (transition.py, _handle_s5_transition). -/
def handleS5Transition (event : SemanticEvent) (state_snapshot : StateSnapshot)
    (policy_snapshot : PolicySnapshot) : TransitionResult :=
  let et := event.event_type
  if et == "SEAT_SELECTED" then
    { next_state := .s6Transaction, notes := ["seat selected"] }
  else if et == "PAYMENT_PAGE_ENTERED" then
    { next_state := .s6Transaction, notes := ["payment page entered"] }
  else if et == "SEAT_TAKEN" then
    let budget := dictGet state_snapshot.budgets "retry" 0
    let p_val := policy_snapshot.getStrRule "seat_taken_policy" "rollback_s4"
    if budget > 0 then
      { next_state := .s5Seat, notes := ["seat taken, budget left, stay S5"] }
    else if p_val == "rollback_s4" then
      { next_state := .s4Section, notes := ["seat taken, budget exhausted, rollback S4"] }
    else
      { next_state := .sxTerminal, terminal_reason := some .abort,
        notes := ["seat taken, budget exhausted, abort by policy"] }
  else if et == "PAYMENT_COMPLETED" then
    { next_state := .sxTerminal, terminal_reason := some .done,
      notes := ["immediate payment from S5"] }
  else if et == "HOLD_CONFIRMED" || et == "HOLD_ACQUIRED" then
    { next_state := .s6Transaction, notes := ["hold acquired from S5"] }
  else
    { next_state := .s5Seat, notes := ["invalid event in S5 ignored"] }

/-- Helper for strContains: scan every suffix for the pattern. -/
def containsAux (pat : List Char) : List Char → Bool
  | [] => pat.isPrefixOf ([] : List Char)
  | c :: rest => pat.isPrefixOf (c :: rest) || containsAux pat rest

/-- Substring containment, as the Python expression pat in s. -/
def strContains (s pat : String) : Bool :=
  containsAux pat.toList s.toList

/-- Handler for S6 (transition.py, _handle_s6_transition). -/
def handleS6Transition (event : SemanticEvent) (state_snapshot : StateSnapshot)
    (policy_snapshot : PolicySnapshot) : TransitionResult :=
  let et := event.event_type
  if et == "PAYMENT_COMPLETE" || et == "PAYMENT_COMPLETED" then
    { next_state := .sxTerminal, terminal_reason := some .done,
      notes := ["payment completed"] }
  else if et == "HOLD_CONFIRMED" || et == "HOLD_ACQUIRED" then
    { next_state := .s6Transaction, notes := ["hold confirmed, stay S6"] }
  else if et == "HOLD_FAILED" then
    let budget := dictGet state_snapshot.budgets "retry" 0
    let p_val := policy_snapshot.getStrRule "hold_fail_policy" "rollback_s4"
    if budget > 0 then
      { next_state := .s5Seat, notes := ["hold failed, budget left, rollback S5"] }
    else
      let next_s : State := if strContains p_val "s5" then .s5Seat else .s4Section
      if strContains p_val "rollback" then
        { next_state := next_s, notes := ["hold failed, budget exhausted, rollback"] }
      else
        { next_state := .sxTerminal, terminal_reason := some .abort,
          notes := ["hold failed, budget exhausted, abort by policy"] }
  else if et == "TXN_ROLLBACK_REQUIRED" then
    let reason_str := policy_snapshot.getStrRule "rollback_policy" "rollback_s5"
    if reason_str == "abort" then
      { next_state := .sxTerminal, terminal_reason := some .abort,
        notes := ["transaction rollback required, abort"] }
    else
      { next_state := .s5Seat, notes := ["transaction rollback required, S5"] }
  else if et == "PAYMENT_TIMEOUT" then
    let reason_str := policy_snapshot.getStrRule "payment_timeout_policy" "abort"
    if reason_str.startsWith "rollback" then
      let next_s : State := if strContains reason_str "s5" then .s5Seat else .s4Section
      { next_state := next_s, notes := ["payment timeout, rollback by policy"] }
    else
      { next_state := .sxTerminal, terminal_reason := some .abort,
        failure_code := some "PAYMENT_TIMEOUT",
        notes := ["payment timeout, abort"] }
  else
    { next_state := .s6Transaction, notes := ["invalid event in S6 ignored"] }

/-- The pure attack transition function (transition.py, transition).
Rule order as in the source: global terminal events, security interrupt,
the S3 handler, the per-state dispatch table, the SX self-loop.
The source has no branch for COOLDOWN_TRIGGERED. -/
def transition (state : State) (event : SemanticEvent)
    (policy_snapshot : PolicySnapshot) (state_snapshot : StateSnapshot) :
    TransitionResult :=
  let event_type := event.event_type
  if event_type == "SESSION_EXPIRED" then
    { next_state := .sxTerminal, terminal_reason := some .reset,
      failure_code := some "SESSION_EXPIRED", notes := ["session expired, reset"] }
  else if event_type == "FATAL_ERROR" then
    { next_state := .sxTerminal, terminal_reason := some .abort,
      failure_code := event.failure_code, notes := ["fatal error, abort"] }
  else if event_type == "POLICY_ABORT" then
    { next_state := .sxTerminal, terminal_reason := some .abort,
      notes := ["policy violation, abort"] }
  else if (event_type == "CHALLENGE_DETECTED" || event_type == "DEF_CHALLENGE_FORCED")
      && state.can_be_last_non_security then
    { next_state := .s3Security, notes := ["security challenge detected, S3 interrupt"] }
  else if state = State.s3Security then
    handleS3Transition event state_snapshot policy_snapshot
  else
    match state with
    | .s0Init => handleS0Transition event state_snapshot policy_snapshot
    | .s1PreEntry => handleS1Transition event state_snapshot policy_snapshot
    | .s2QueueEntry => handleS2Transition event state_snapshot policy_snapshot
    | .s4Section => handleS4Transition event state_snapshot policy_snapshot
    | .s5Seat => handleS5Transition event state_snapshot policy_snapshot
    | .s6Transaction => handleS6Transition event state_snapshot policy_snapshot
    | .sxTerminal =>
        { next_state := .sxTerminal, terminal_reason := some .done,
          notes := ["already terminal, stay"] }
    | .s3Security => handleS3Transition event state_snapshot policy_snapshot

/-- Recovery path of a FailurePolicy (failure.py): either a concrete state or
the marker Self, resolved to the current state at lookup time. -/
inductive RecoverPath where
  | state (s : State)
  | self
  deriving DecidableEq, Repr

/-- FailurePolicy from attack/a0_poc/failure.py. failure_code holds the value
of the FailureCode string enum. Free-text fields keep the S4 and SX markers
that _apply_failure_policy greps for; the surrounding Korean text is
abbreviated. -/
structure FailurePolicy where
  failure_code : String
  primary_action : String
  recover_path : RecoverPath
  retry_budget_key : Option String := none
  backoff_strategy : String := "none"
  stop_condition : Option String := none
  deriving DecidableEq, Repr

/-- The (state, event_type) keyed matrix built by FailureMatrix._load_v1_matrix
(failure.py). Event types are the string values of the event_registry EventType
enum. The two Any-state rules (TIMEOUT, SESSION_EXPIRED) are expanded over the
seven non-terminal states exactly as the source loops do. -/
def failureMatrixV1 : List ((State × String) × FailurePolicy) :=
  [ ((.s5Seat, "SEAT_TAKEN"),
      { failure_code := "F_SEAT_TAKEN", primary_action := "pick another seat",
        recover_path := .state .s5Seat, retry_budget_key := some "N_seat",
        backoff_strategy := "jitter + short wait",
        stop_condition := some "N_seat exhausted -> S4" }),
    ((.s5Seat, "HOLD_FAILED"),
      { failure_code := "F_HOLD_FAILED", primary_action := "retry or change candidate",
        recover_path := .state .s5Seat, retry_budget_key := some "N_hold",
        backoff_strategy := "exp backoff short",
        stop_condition := some "N_hold exhausted -> S4" }),
    ((.s6Transaction, "TXN_ROLLBACK_REQUIRED"),
      { failure_code := "F_HOLD_EXPIRED", primary_action := "rollback then reselect",
        recover_path := .state .s5Seat, retry_budget_key := some "N_txn_rb",
        stop_condition := some "repeated -> SX" }),
    ((.s4Section, "SECTION_EMPTY"),
      { failure_code := "F_SECTION_EMPTY", primary_action := "pick another section",
        recover_path := .state .s4Section, retry_budget_key := some "N_section",
        stop_condition := some "candidates exhausted -> SX" }),
    ((.s3Security, "CHALLENGE_FAILED"),
      { failure_code := "F_CHALLENGE_FAILED", primary_action := "retry slower",
        recover_path := .state .s3Security, retry_budget_key := some "N_challenge",
        backoff_strategy := "growing cooldown",
        stop_condition := some "N_challenge exhausted -> SX" }) ]
  ++ ([State.s0Init, .s1PreEntry, .s2QueueEntry, .s3Security,
       .s4Section, .s5Seat, .s6Transaction].map (fun s =>
        ((s, "TIMEOUT"),
          { failure_code := "F_NETWORK_TIMEOUT", primary_action := "retry",
            recover_path := RecoverPath.self, retry_budget_key := some "N_net",
            backoff_strategy := "exp backoff",
            stop_condition := some "timebox exceeded -> SX" })))
  ++ ([State.s0Init, .s1PreEntry, .s2QueueEntry, .s3Security,
       .s4Section, .s5Seat, .s6Transaction].map (fun s =>
        ((s, "SESSION_EXPIRED"),
          { failure_code := "F_SESSION_EXPIRED", primary_action := "session reset",
            recover_path := RecoverPath.state .s0Init,
            retry_budget_key := some "N_session_reset",
            stop_condition := some "repeated reset -> SX" })))
  ++ [ ((.s6Transaction, "PAYMENT_TIMEOUT"),
        { failure_code := "F_PAYMENT_TIMEOUT", primary_action := "finish as failure",
          recover_path := .state .sxTerminal,
          stop_condition := some "immediate SX" }),
       ((.s2QueueEntry, "QUEUE_STUCK"),
        { failure_code := "F_SANDBOX_STUCK", primary_action := "reset session",
          recover_path := .state .s1PreEntry, retry_budget_key := some "N_reset",
          stop_condition := some "repeated reset -> SX" }) ]

/-- FailureMatrix.get_policy (failure.py): dict lookup on (state, event_type),
resolving a Self recover path to the queried state. -/
def getFailurePolicy (state : State) (event_type : String) : Option FailurePolicy :=
  match failureMatrixV1.find? (fun p => p.1 == (state, event_type)) with
  | none => none
  | some ⟨_, policy⟩ =>
      if policy.recover_path == RecoverPath.self then
        some { policy with recover_path := .state state }
      else
        some policy

/-- ExecutionResult from attack/a0_poc/transition.py. -/
structure ExecutionResult where
  state_path : List State
  terminal_state : State
  terminal_reason : TerminalReason
  handled_events : Nat
  total_elapsed_ms : Int
  final_budgets : List (String × Int) := []
  final_counters : List (String × Int) := []
  deriving DecidableEq, Repr

/-- Errors that escape run_events (orchestrator.py): the ValueError raised when
the event list is exhausted before a terminal state, and the uncaught
AttributeError raised inside the failure-matrix block, where run_events reads
event.type.value although the attack SemanticEvent (a slots dataclass) only
defines event_type; the except clause there catches ValueError only. -/
inductive RunError where
  | valueError (msg : String)
  | attributeError (msg : String)
  deriving DecidableEq, Repr

/-- One iteration of the run_events loop body for the matrix-free path
(orchestrator.py lines 61-105): call transition with the current snapshot,
move the store to next_state, and record last_non_security_state when the
flow enters S3 from an interruptible state. -/
def orchestratorStep (snap : StateSnapshot) (event : SemanticEvent)
    (policy : PolicySnapshot) : TransitionResult × StateSnapshot :=
  let current_state := snap.current_state
  let result := transition current_state event policy snap
  let next_state := result.next_state
  let snap := { snap with current_state := next_state }
  let snap :=
    if next_state.is_security && current_state.can_be_last_non_security then
      { snap with last_non_security_state := some current_state }
    else snap
  (result, snap)

/-- Loop accumulator of run_events: store snapshot, visited path, handled
count, and the last transition result. -/
structure RunAcc where
  snap : StateSnapshot
  state_path : List State
  handled_events : Nat
  last_result : Option TransitionResult
  deriving DecidableEq, Repr

/-- The for-loop of run_events (orchestrator.py). When a failure matrix is
provided the body evaluates event.type, which the attack SemanticEvent does
not define, so the loop raises AttributeError on the first handled event. -/
def runEventsLoop (policy : PolicySnapshot) (matrixPresent : Bool) :
    List SemanticEvent → RunAcc → Except RunError RunAcc
  | [], acc => .ok acc
  | event :: rest, acc =>
    if acc.snap.current_state.is_terminal then .ok acc
    else
      let (result, snap) := orchestratorStep acc.snap event policy
      if matrixPresent then
        .error (.attributeError "SemanticEvent object has no attribute type")
      else
        let path :=
          if acc.state_path.getLast? == some result.next_state then acc.state_path
          else acc.state_path ++ [result.next_state]
        let acc : RunAcc :=
          ⟨snap, path, acc.handled_events + 1, some result⟩
        if result.next_state.is_terminal then .ok acc
        else runEventsLoop policy matrixPresent rest acc

/-- run_events (orchestrator.py): process the event list, then demand a
terminal final state and assemble the ExecutionResult. The roi_logger
parameter only matters inside the dead failure-policy path and is omitted.
The matrix argument is reduced to its presence: its content is never reached
because the loop body raises first (see RunError). -/
def runEvents (events : List SemanticEvent) (snap : StateSnapshot)
    (policy : PolicySnapshot) (matrixPresent : Bool) :
    Except RunError ExecutionResult :=
  match runEventsLoop policy matrixPresent events
      ⟨snap, [snap.current_state], 0, none⟩ with
  | .error e => .error e
  | .ok acc =>
    if !acc.snap.current_state.is_terminal then
      .error (.valueError "event list exhausted before a terminal state")
    else
      let terminal_reason : TerminalReason :=
        match acc.last_result with
        | some r => match r.terminal_reason with
          | some tr => tr
          | none => .done
        | none => .done
      .ok ⟨acc.state_path, acc.snap.current_state, terminal_reason,
           acc.handled_events, acc.snap.elapsed_ms,
           acc.snap.budgets, acc.snap.counters⟩

end Attack

namespace Defense

/-- Flow states from defense/d0_poc/core/states.py (string enum FlowState). -/
inductive FlowState where
  | s0
  | s1
  | s2
  | s3
  | s4
  | s5
  | s6
  | sx
  deriving DecidableEq, Repr

/-- Defense tiers from defense/d0_poc/core/states.py. -/
inductive DefenseTier where
  | t0
  | t1
  | t2
  | t3
  deriving DecidableEq, Repr

/-- The tier rank mapping _TIER_RANK of brain/risk_engine.py. -/
def DefenseTier.rank : DefenseTier → Nat
  | .t0 => 0
  | .t1 => 1
  | .t2 => 2
  | .t3 => 3

/-- Event sources from defense/d0_poc/core/states.py. -/
inductive EventSource where
  | page
  | backend
  | timer
  | defense
  deriving DecidableEq, Repr

/-- Terminal reasons from defense/d0_poc/core/states.py (uppercase values). -/
inductive TerminalReason where
  | done
  | abort
  | cooldown
  | reset
  | sessionExpired
  | blocked
  deriving DecidableEq, Repr

/-- Failure codes from defense/d0_poc/core/states.py. -/
inductive FailureCode where
  | fNone
  | fChallengeFailed
  | fTimeout
  | fSeatTaken
  | fHoldFailed
  | fBlocked
  | fPolicyViolation
  deriving DecidableEq, Repr

/-- Modelled from the spec: the event-name constants exported by the missing
module defense/d0_poc/signals/__init__.py (src/ only holds signals/events.py
and signals/validator.py). Sections 4.7 and 4.8 of the spec name these events
literally, and every in-repo use imports them by these names; each constant
denotes its own name, matching the naming convention of the common EventType
enum. Listed as one name-to-itself table. -/
def SIGNAL_TOKEN_MISMATCH : String := "SIGNAL_TOKEN_MISMATCH"

/-- Modelled from the spec: see SIGNAL_TOKEN_MISMATCH. -/
def SIGNAL_REPETITIVE_PATTERN : String := "SIGNAL_REPETITIVE_PATTERN"

/-- Modelled from the spec: see SIGNAL_TOKEN_MISMATCH. -/
def STAGE_3_CHALLENGE_FAILED : String := "STAGE_3_CHALLENGE_FAILED"

/-- Modelled from the spec: see SIGNAL_TOKEN_MISMATCH. -/
def STAGE_3_CHALLENGE_PASSED : String := "STAGE_3_CHALLENGE_PASSED"

/-- Modelled from the spec: see SIGNAL_TOKEN_MISMATCH. -/
def STAGE_5_SEAT_TAKEN : String := "STAGE_5_SEAT_TAKEN"

/-- Modelled from the spec: see SIGNAL_TOKEN_MISMATCH. -/
def STAGE_5_HOLD_FAILED : String := "STAGE_5_HOLD_FAILED"

/-- Modelled from the spec: see SIGNAL_TOKEN_MISMATCH. -/
def STAGE_5_SEAT_SELECTED : String := "STAGE_5_SEAT_SELECTED"

/-- Modelled from the spec: see SIGNAL_TOKEN_MISMATCH. -/
def STAGE_5_CONFIRM_CLICKED : String := "STAGE_5_CONFIRM_CLICKED"

/-- Modelled from the spec: see SIGNAL_TOKEN_MISMATCH. -/
def STAGE_6_PAYMENT_COMPLETED : String := "STAGE_6_PAYMENT_COMPLETED"

/-- Modelled from the spec: see SIGNAL_TOKEN_MISMATCH. -/
def STAGE_6_PAYMENT_ABORTED : String := "STAGE_6_PAYMENT_ABORTED"

/-- Modelled from the spec: see SIGNAL_TOKEN_MISMATCH. -/
def STAGE_1_ENTRY_CLICKED : String := "STAGE_1_ENTRY_CLICKED"

/-- Modelled from the spec: see SIGNAL_TOKEN_MISMATCH. -/
def STAGE_2_QUEUE_PASSED : String := "STAGE_2_QUEUE_PASSED"

/-- Modelled from the spec: see SIGNAL_TOKEN_MISMATCH. -/
def STAGE_4_SECTION_SELECTED : String := "STAGE_4_SECTION_SELECTED"

/-- Modelled from the spec: see SIGNAL_TOKEN_MISMATCH. -/
def FLOW_START : String := "FLOW_START"

/-- Modelled from the spec: see SIGNAL_TOKEN_MISMATCH. -/
def FLOW_ABORT : String := "FLOW_ABORT"

/-- Modelled from the spec: see SIGNAL_TOKEN_MISMATCH. -/
def FLOW_RESET : String := "FLOW_RESET"

/-- Modelled from the spec: see SIGNAL_TOKEN_MISMATCH. -/
def DEF_BLOCKED : String := "DEF_BLOCKED"

/-- Modelled from the spec: see SIGNAL_TOKEN_MISMATCH. -/
def DEF_THROTTLED : String := "DEF_THROTTLED"

/-- Modelled from the spec: see SIGNAL_TOKEN_MISMATCH. -/
def RISK_TIER_UPDATED : String := "RISK_TIER_UPDATED"

/-- Event from defense/d0_poc/signals/events.py. The opaque payload dict is
modelled as a string-to-string association list, which covers every payload
the embedded code writes. -/
structure Event where
  event_id : String
  ts_ms : Int
  type : String
  source : EventSource
  session_id : String
  payload : List (String × String) := []
  deriving DecidableEq, Repr

/-- Context from defense/d0_poc/core/models.py. -/
structure Context where
  last_non_security_state : Option FlowState := none
  challenge_fail_count : Int := 0
  seat_taken_count : Int := 0
  hold_fail_count : Int := 0
  session_age : Int := 0
  is_sandboxed : Bool := false
  retry_count : Int := 0
  deriving DecidableEq, Repr

/-- DefenseAction from defense/d0_poc/core/models.py. -/
structure DefenseAction where
  type : String
  payload : List (String × String) := []
  deriving DecidableEq, Repr

/-- A value stored in the context_mutations dict of a TransitionResult
(dict of str to object in the source): the engine writes ints, an optional
FlowState, and bools. -/
inductive MutVal where
  | intVal (n : Int)
  | stateVal (s : Option FlowState)
  | boolVal (b : Bool)
  deriving DecidableEq, Repr

/-- TransitionResult from defense/d0_poc/core/models.py. Unlike the attack
TransitionResult, this dataclass has no __post_init__ contract check. -/
structure TransitionResult where
  next_state : FlowState
  context_mutations : List (String × MutVal) := []
  actions : List DefenseAction := []
  failure_code : Option FailureCode := none
  terminal_reason : Option TerminalReason := none
  return_to : Option FlowState := none
  deriving DecidableEq, Repr

/-- PolicySnapshot from defense/d0_poc/policy/snapshot.py. -/
structure PolicySnapshot where
  max_retry_per_state : Int := 3
  challenge_fail_threshold : Int := 3
  seat_taken_streak_threshold : Int := 7
  deriving DecidableEq, Repr

/-- The failure and guardrail branches of the defense transition
(orchestrator/engine.py, transition), in source order; none means no
guardrail branch fired and the normal-progression chain applies. -/
def failureRules (state : FlowState) (event : Event) (ctx : Context)
    (policy : PolicySnapshot) : Option TransitionResult :=
  if event.type == SIGNAL_TOKEN_MISMATCH then
    some { next_state := .sx,
           actions := [⟨DEF_BLOCKED, [("reason", "token_mismatch")]⟩],
           failure_code := some .fPolicyViolation, terminal_reason := some .blocked }
  else if event.type == STAGE_3_CHALLENGE_FAILED then
    if ctx.challenge_fail_count + 1 ≥ policy.challenge_fail_threshold then
      some { next_state := .sx,
             context_mutations :=
               [("challenge_fail_count", .intVal (ctx.challenge_fail_count + 1))],
             actions := [⟨DEF_BLOCKED, [("reason", "challenge_fail_threshold")]⟩],
             failure_code := some .fChallengeFailed, terminal_reason := some .blocked }
    else
      some { next_state := state,
             context_mutations :=
               [("challenge_fail_count", .intVal (ctx.challenge_fail_count + 1))] }
  else if (event.type == STAGE_5_SEAT_TAKEN || event.type == STAGE_5_HOLD_FAILED)
      && state == FlowState.s5 then
    some { next_state := .s5,
           context_mutations :=
             [((if event.type == STAGE_5_SEAT_TAKEN then "seat_taken_count"
                else "hold_fail_count"),
               .intVal ((if event.type == STAGE_5_SEAT_TAKEN then ctx.seat_taken_count
                         else ctx.hold_fail_count) + 1))],
           actions :=
             if (if event.type == STAGE_5_SEAT_TAKEN then ctx.seat_taken_count
                 else ctx.hold_fail_count) + 1 ≥ policy.seat_taken_streak_threshold then
               [DefenseAction.mk DEF_THROTTLED [("state", "S5")]]
             else [] }
  else if event.type == DEF_BLOCKED then
    some { next_state := .sx, failure_code := some .fBlocked,
           terminal_reason := some .blocked }
  else if event.type == FLOW_ABORT then
    some { next_state := .sx, terminal_reason := some .abort }
  else if event.type == FLOW_RESET then
    some { next_state := .s0,
           context_mutations :=
             [("challenge_fail_count", .intVal 0), ("seat_taken_count", .intVal 0),
              ("hold_fail_count", .intVal 0),
              ("last_non_security_state", .stateVal none),
              ("is_sandboxed", .boolVal false), ("session_age", .intVal 0)],
           terminal_reason := some .reset }
  else if event.type == STAGE_6_PAYMENT_ABORTED then
    some { next_state := .sx, terminal_reason := some .abort }
  else if event.type == "TXN_ROLLBACK" && state == FlowState.s6 then
    some { next_state := .s5, return_to := some .s6 }
  else
    none

/-- The normal-progression else-branch of the defense transition
(orchestrator/engine.py, transition). -/
def normalProgression (state : FlowState) (event : Event) : TransitionResult :=
  if state == FlowState.s0 && event.type == FLOW_START then
    { next_state := .s1 }
  else if state == FlowState.s1 && event.type == STAGE_1_ENTRY_CLICKED then
    { next_state := .s2 }
  else if state == FlowState.s2 && event.type == STAGE_2_QUEUE_PASSED then
    { next_state := .s3 }
  else if state == FlowState.s3 && event.type == STAGE_3_CHALLENGE_PASSED then
    { next_state := .s4 }
  else if state == FlowState.s4 && event.type == STAGE_4_SECTION_SELECTED then
    { next_state := .s5 }
  else if state == FlowState.s5 && event.type == STAGE_5_CONFIRM_CLICKED then
    { next_state := .s6 }
  else if state == FlowState.s6 && event.type == STAGE_6_PAYMENT_COMPLETED then
    { next_state := .sx, terminal_reason := some .done }
  else
    { next_state := state }

/-- The branch chain of the defense transition before the trailing S5
streak-reset block: the guardrail rules override; otherwise the
normal-progression chain decides. -/
def transitionCore (state : FlowState) (event : Event) (ctx : Context)
    (policy : PolicySnapshot) : TransitionResult :=
  match failureRules state event ctx policy with
  | some r => r
  | none => normalProgression state event

/-- The pure defense transition function (orchestrator/engine.py, transition):
the branch chain above followed by the trailing block that resets the S5
streak counters when the flow leaves S5 for reasons other than seat or hold
failures. -/
def transition (state : FlowState) (event : Event) (ctx : Context)
    (policy : PolicySnapshot) : TransitionResult :=
  let r := transitionCore state event ctx policy
  if state == FlowState.s5 && r.next_state != FlowState.s5 then
    let muts := r.context_mutations
    let muts :=
      if !(muts.any (fun p => p.1 == "seat_taken_count")) then
        muts ++ [("seat_taken_count", MutVal.intVal 0)]
      else muts
    let muts :=
      if !(muts.any (fun p => p.1 == "hold_fail_count")) then
        muts ++ [("hold_fail_count", MutVal.intVal 0)]
      else muts
    { r with context_mutations := muts }
  else r

/-- EvidenceState from defense/d0_poc/brain/evidence.py. signal_history is a
deque with maxlen 10; here a list together with the capacity-respecting
append below. -/
structure EvidenceState where
  last_signal_ts : Int := 0
  challenge_fail_count : Int := 0
  seat_taken_streak : Int := 0
  signal_history : List String := []
  token_mismatch_detected : Bool := false
  deriving DecidableEq, Repr

/-- Append on a deque with maxlen 10: when full, the oldest entry is dropped
before the new one is added. -/
def ringAppend (history : List String) (s : String) : List String :=
  if history.length < 10 then history ++ [s]
  else history.drop 1 ++ [s]

/-- SignalAggregator.process_event (brain/evidence.py): pure update of the
evidence state. Branch structure as in the source: one elif chain for the
counters, then the token-mismatch check, then the SIGNAL_ history append. -/
def processEvent (state : EvidenceState) (event : Event) : EvidenceState :=
  let newState := { state with last_signal_ts := event.ts_ms }
  let event_type := event.type
  let newState :=
    if event_type == STAGE_3_CHALLENGE_FAILED then
      { newState with challenge_fail_count := newState.challenge_fail_count + 1 }
    else if event_type == STAGE_3_CHALLENGE_PASSED then
      { newState with challenge_fail_count := 0 }
    else if event_type == STAGE_5_SEAT_TAKEN || event_type == STAGE_5_HOLD_FAILED then
      { newState with seat_taken_streak := newState.seat_taken_streak + 1 }
    else if event_type == STAGE_5_SEAT_SELECTED then
      { newState with seat_taken_streak := 0 }
    else newState
  let newState :=
    if event_type == SIGNAL_TOKEN_MISMATCH then
      { newState with token_mismatch_detected := true }
    else newState
  if event_type.startsWith "SIGNAL_" then
    { newState with signal_history := ringAppend newState.signal_history event_type }
  else newState

/-- RiskController._count_repetitive_patterns (brain/risk_engine.py). -/
def countRepetitivePatterns (evidence : EvidenceState) : Nat :=
  evidence.signal_history.countP (fun sig => sig == SIGNAL_REPETITIVE_PATTERN)

/-- RiskController._evaluate_escalation_rules (brain/risk_engine.py) with the
fixed PoC-0 thresholds (challenge fail 3, repetitive pattern 1 for T1 and
3 for T2). -/
def evaluateEscalationRules (evidence : EvidenceState) : DefenseTier :=
  if evidence.token_mismatch_detected then .t3
  else if evidence.challenge_fail_count ≥ 3 then .t3
  else if countRepetitivePatterns evidence ≥ 3 then .t2
  else if countRepetitivePatterns evidence ≥ 1 then .t1
  else .t0

/-- RiskController._should_decay (brain/risk_engine.py): R-4 decay fires when
the current tier is at least T2, the flow state is S3, and the event is
STAGE_3_CHALLENGE_PASSED. -/
def shouldDecay (current_tier : DefenseTier) (current_flow_state : FlowState)
    (event : Event) : Bool :=
  current_tier.rank ≥ DefenseTier.t2.rank
    && current_flow_state == FlowState.s3
    && event.type == STAGE_3_CHALLENGE_PASSED

/-- RiskController._create_tier_updated_event (brain/risk_engine.py). The
random uuid suffix of event_id is outside the pure model; the claims consult
only the type, source and payload of the emitted event. -/
def createTierUpdatedEvent (current_tier target_tier : DefenseTier)
    (source_event : Event) : Event :=
  { event_id := "risk-", ts_ms := source_event.ts_ms, type := RISK_TIER_UPDATED,
    source := .defense, session_id := source_event.session_id,
    payload := [("from", reprStr current_tier), ("to", reprStr target_tier)] }

/-- Step 4 of RiskController.decide_tier: emit a RISK_TIER_UPDATED event when
the tier changed, else keep the current tier with no event. -/
def tierResult (current_tier target_tier : DefenseTier) (event : Event) :
    DefenseTier × Option Event :=
  if target_tier ≠ current_tier then
    (target_tier, some (createTierUpdatedEvent current_tier target_tier event))
  else
    (current_tier, none)

/-- RiskController.decide_tier (brain/risk_engine.py): escalation rules, the
no-drop clamp, the R-4 decay override, and the RISK_TIER_UPDATED emission
when the tier changed. -/
def decideTier (evidence : EvidenceState) (current_tier : DefenseTier)
    (current_flow_state : FlowState) (event : Event) :
    DefenseTier × Option Event :=
  let target_tier := evaluateEscalationRules evidence
  let target_tier :=
    if target_tier.rank < current_tier.rank then current_tier else target_tier
  let target_tier :=
    if shouldDecay current_tier current_flow_state event then DefenseTier.t1
    else target_tier
  tierResult current_tier target_tier event

/-- PlannedAction from defense/d0_poc/brain/planner.py. -/
structure PlannedAction where
  action_type : String
  params : List (String × String) := []
  deriving DecidableEq, Repr

/-- ActionPlanner._apply_tier_matrix (brain/planner.py). -/
def applyTierMatrix (tier : DefenseTier) : List PlannedAction :=
  match tier with
  | .t0 => []
  | .t1 => [⟨"THROTTLE", [("strength", "light")]⟩]
  | .t2 => [⟨"THROTTLE", [("strength", "strong")]⟩,
            ⟨"CHALLENGE", [("difficulty", "medium")]⟩]
  | .t3 => [⟨"BLOCK", [("reason", "tier_t3")]⟩]

/-- params.get("strength", "light") of planner.py. -/
def paramGetD (params : List (String × String)) (k d : String) : String :=
  match params.find? (fun p => p.1 == k) with
  | some p => p.2
  | none => d

/-- ActionPlanner._apply_s5_streak_rule (brain/planner.py): upgrade the first
planned THROTTLE from light to strong, or append THROTTLE strong when none is
planned. -/
def applyS5StreakRule (actions : List PlannedAction) : List PlannedAction :=
  match actions.findIdx? (fun a => a.action_type == "THROTTLE") with
  | some i =>
      let current_strength := paramGetD ((actions.get? i).getD ⟨"", []⟩).params "strength" "light"
      if current_strength == "light" then
        actions.set i ⟨"THROTTLE", [("strength", "strong")]⟩
      else actions
  | none => actions ++ [⟨"THROTTLE", [("strength", "strong")]⟩]

/-- ActionPlanner.plan_actions (brain/planner.py): rule F-5 (S6 protection)
first, then the tier matrix, then rule F-3 (S5 streak, threshold 7). -/
def planActions (tier : DefenseTier) (flow_state : FlowState)
    (evidence : EvidenceState) : List PlannedAction :=
  if flow_state == FlowState.s6 then
    if tier == DefenseTier.t3 then [⟨"BLOCK", [("reason", "tier_t3")]⟩]
    else []
  else
    let actions := applyTierMatrix tier
    if evidence.seat_taken_streak ≥ 7 then applyS5StreakRule actions
    else actions

/-- The terminal-consistency predicate for defense results: same shape as the
attack predicate, but nothing in core/models.py enforces it. -/
def TransitionResult.terminalConsistent (r : TransitionResult) : Prop :=
  r.next_state = FlowState.sx ↔ r.terminal_reason.isSome

instance (r : TransitionResult) : Decidable r.terminalConsistent := by
  unfold TransitionResult.terminalConsistent; infer_instance

end Defense

/-! Sample inputs for concrete evaluations and witnesses. -/

/-- A default attack policy snapshot with an empty rules dict. -/
def samplePolicy : Attack.PolicySnapshot := ⟨"default", []⟩

/-- A fresh attack snapshot in S2 with no budgets or counters. -/
def sampleSnapS2 : Attack.StateSnapshot := ⟨.s2QueueEntry, none, [], [], 0⟩

/-- An attack event with only a type. -/
def mkAttackEvent (t : String) : Attack.SemanticEvent := ⟨t, none, none⟩

/-- A defense event with only a type (fixed id, timestamp, source, session). -/
def mkDefenseEvent (t : String) : Defense.Event := ⟨"e1", 1, t, .page, "s1", []⟩

/-! Helper lemmas on the attack constructor contract. -/

/-- Construction succeeds exactly when the terminal-consistency invariant
holds for the requested fields. -/
theorem mkTransitionResult_isOk_iff (ns : Attack.State)
    (tr : Option Attack.TerminalReason) (fc : Option String) (notes : List String) :
    (Attack.mkTransitionResult ns tr fc notes).isOk = true
      ↔ (ns = Attack.State.sxTerminal ↔ tr.isSome) := by
  cases ns <;> cases tr <;>
    simp [Attack.mkTransitionResult, Attack.State.is_terminal, Except.isOk, Except.toBool]

/-- A successfully constructed result carries exactly the requested fields. -/
theorem mkTransitionResult_ok_eq {ns : Attack.State}
    {tr : Option Attack.TerminalReason} {fc : Option String} {notes : List String}
    {r : Attack.TransitionResult}
    (h : Attack.mkTransitionResult ns tr fc notes = .ok r) :
    r = ⟨ns, tr, fc, notes⟩ := by
  unfold Attack.mkTransitionResult at h
  split at h
  · exact absurd h (by simp)
  · split at h
    · exact absurd h (by simp)
    · simpa using h.symm

/-- A successfully constructed result satisfies the invariant. -/
theorem mkTransitionResult_ok_consistent {ns : Attack.State}
    {tr : Option Attack.TerminalReason} {fc : Option String} {notes : List String}
    {r : Attack.TransitionResult}
    (h : Attack.mkTransitionResult ns tr fc notes = .ok r) :
    r.terminalConsistent := by
  have hok : (Attack.mkTransitionResult ns tr fc notes).isOk = true := by
    rw [h]; rfl
  have hiff := (mkTransitionResult_isOk_iff ns tr fc notes).mp hok
  have := mkTransitionResult_ok_eq h
  subst this
  exact hiff

namespace Attack

/-- The transition function as Python executes it: the single TransitionResult
each code path constructs goes through the __post_init__ contract check, so a
contract-violating branch raises instead of returning. -/
def transitionChecked (state : State) (event : SemanticEvent)
    (policy_snapshot : PolicySnapshot) (state_snapshot : StateSnapshot) :
    Except String TransitionResult :=
  let r := transition state event policy_snapshot state_snapshot
  mkTransitionResult r.next_state r.terminal_reason r.failure_code r.notes

end Attack

/-! Terminal consistency of each attack handler. -/

theorem handleS0_consistent (ev : Attack.SemanticEvent) (snap : Attack.StateSnapshot)
    (pol : Attack.PolicySnapshot) :
    (Attack.handleS0Transition ev snap pol).terminalConsistent := by
  simp only [Attack.handleS0Transition]
  split <;> simp [Attack.TransitionResult.terminalConsistent]

theorem handleS1_consistent (ev : Attack.SemanticEvent) (snap : Attack.StateSnapshot)
    (pol : Attack.PolicySnapshot) :
    (Attack.handleS1Transition ev snap pol).terminalConsistent := by
  simp only [Attack.handleS1Transition]
  split <;> simp [Attack.TransitionResult.terminalConsistent]

theorem handleS2_consistent (ev : Attack.SemanticEvent) (snap : Attack.StateSnapshot)
    (pol : Attack.PolicySnapshot) :
    (Attack.handleS2Transition ev snap pol).terminalConsistent := by
  simp only [Attack.handleS2Transition]
  repeat' split
  all_goals simp [Attack.TransitionResult.terminalConsistent]

theorem handleS3_consistent (ev : Attack.SemanticEvent) (snap : Attack.StateSnapshot)
    (pol : Attack.PolicySnapshot)
    (hlnss : snap.last_non_security_state ≠ some Attack.State.sxTerminal) :
    (Attack.handleS3Transition ev snap pol).terminalConsistent := by
  simp only [Attack.handleS3Transition]
  repeat' split
  all_goals simp_all [Attack.TransitionResult.terminalConsistent]

theorem handleS4_consistent (ev : Attack.SemanticEvent) (snap : Attack.StateSnapshot)
    (pol : Attack.PolicySnapshot) :
    (Attack.handleS4Transition ev snap pol).terminalConsistent := by
  simp only [Attack.handleS4Transition]
  repeat' split
  all_goals simp [Attack.TransitionResult.terminalConsistent]

theorem handleS5_consistent (ev : Attack.SemanticEvent) (snap : Attack.StateSnapshot)
    (pol : Attack.PolicySnapshot) :
    (Attack.handleS5Transition ev snap pol).terminalConsistent := by
  simp only [Attack.handleS5Transition]
  repeat' split
  all_goals simp [Attack.TransitionResult.terminalConsistent]

theorem handleS6_consistent (ev : Attack.SemanticEvent) (snap : Attack.StateSnapshot)
    (pol : Attack.PolicySnapshot) :
    (Attack.handleS6Transition ev snap pol).terminalConsistent := by
  simp only [Attack.handleS6Transition]
  repeat' split
  all_goals simp [Attack.TransitionResult.terminalConsistent]

/-- Terminal consistency of every attack transition result, for snapshots
whose recorded return-to state is not the terminal state (the spec-stated
StateSnapshot invariant; the orchestrator only ever records interruptible
states there). -/
theorem attack_transition_consistent (s : Attack.State) (ev : Attack.SemanticEvent)
    (pol : Attack.PolicySnapshot) (snap : Attack.StateSnapshot)
    (hlnss : snap.last_non_security_state ≠ some Attack.State.sxTerminal) :
    (Attack.transition s ev pol snap).terminalConsistent := by
  simp only [Attack.transition]
  split
  · simp [Attack.TransitionResult.terminalConsistent]
  · split
    · simp [Attack.TransitionResult.terminalConsistent]
    · split
      · simp [Attack.TransitionResult.terminalConsistent]
      · split
        · simp [Attack.TransitionResult.terminalConsistent]
        · split
          · exact handleS3_consistent ev snap pol hlnss
          · cases s with
            | s0Init => exact handleS0_consistent ev snap pol
            | s1PreEntry => exact handleS1_consistent ev snap pol
            | s2QueueEntry => exact handleS2_consistent ev snap pol
            | s3Security => exact handleS3_consistent ev snap pol hlnss
            | s4Section => exact handleS4_consistent ev snap pol
            | s5Seat => exact handleS5_consistent ev snap pol
            | s6Transaction => exact handleS6_consistent ev snap pol
            | sxTerminal => simp [Attack.TransitionResult.terminalConsistent]

/-- The trailing S5 streak-reset block only rewrites context_mutations: the
transition has the same next_state, terminal_reason, actions, failure_code
and return_to as its branch chain. -/
theorem defense_transition_same_core (s : Defense.FlowState) (ev : Defense.Event)
    (ctx : Defense.Context) (pol : Defense.PolicySnapshot) :
    (Defense.transition s ev ctx pol).next_state
        = (Defense.transitionCore s ev ctx pol).next_state
    ∧ (Defense.transition s ev ctx pol).terminal_reason
        = (Defense.transitionCore s ev ctx pol).terminal_reason
    ∧ (Defense.transition s ev ctx pol).actions
        = (Defense.transitionCore s ev ctx pol).actions
    ∧ (Defense.transition s ev ctx pol).failure_code
        = (Defense.transitionCore s ev ctx pol).failure_code
    ∧ (Defense.transition s ev ctx pol).return_to
        = (Defense.transitionCore s ev ctx pol).return_to := by
  simp only [Defense.transition]
  repeat' split
  all_goals simp

/-- Every guardrail result is terminally consistent except on FLOW_RESET
(the S3 challenge-fail retry branch needs the current state to be
non-terminal). -/
theorem defense_failure_rules_consistent (s : Defense.FlowState) (ev : Defense.Event)
    (ctx : Defense.Context) (pol : Defense.PolicySnapshot)
    (hs : s ≠ Defense.FlowState.sx) (hev : ev.type ≠ Defense.FLOW_RESET)
    (r : Defense.TransitionResult)
    (hr : Defense.failureRules s ev ctx pol = some r) :
    r.terminalConsistent := by
  unfold Defense.failureRules at hr
  repeat' split at hr
  all_goals first
    | exact Option.noConfusion hr
    | (injection hr with h; subst h)
  all_goals
    simp_all [Defense.TransitionResult.terminalConsistent, Defense.FLOW_RESET]

/-- Every normal-progression result from a non-terminal state is terminally
consistent. -/
theorem defense_normal_progression_consistent (s : Defense.FlowState)
    (ev : Defense.Event) (hs : s ≠ Defense.FlowState.sx) :
    (Defense.normalProgression s ev).terminalConsistent := by
  unfold Defense.normalProgression
  repeat' split
  all_goals simp_all [Defense.TransitionResult.terminalConsistent]

/-- Terminal consistency of the defense branch chain away from the two
failing situations. -/
theorem defense_core_consistent (s : Defense.FlowState) (ev : Defense.Event)
    (ctx : Defense.Context) (pol : Defense.PolicySnapshot)
    (hs : s ≠ Defense.FlowState.sx) (hev : ev.type ≠ Defense.FLOW_RESET) :
    (Defense.transitionCore s ev ctx pol).terminalConsistent := by
  unfold Defense.transitionCore
  split
  · rename_i r hr
    exact defense_failure_rules_consistent s ev ctx pol hs hev r hr
  · exact defense_normal_progression_consistent s ev hs

/-- Terminal consistency of defense transition results away from the two
failing situations: a FLOW_RESET event (which yields S0 with reason RESET)
and a current state that is already SX (where the result can be SX with no
reason). -/
theorem defense_transition_consistent (s : Defense.FlowState) (ev : Defense.Event)
    (ctx : Defense.Context) (pol : Defense.PolicySnapshot)
    (hs : s ≠ Defense.FlowState.sx) (hev : ev.type ≠ Defense.FLOW_RESET) :
    (Defense.transition s ev ctx pol).terminalConsistent := by
  have hsame := defense_transition_same_core s ev ctx pol
  have hcore := defense_core_consistent s ev ctx pol hs hev
  unfold Defense.TransitionResult.terminalConsistent at hcore ⊢
  rw [hsame.1, hsame.2.1]
  exact hcore

/-- On a FLOW_RESET event the guardrail chain fires the reset branch. -/
theorem defense_failure_rules_flow_reset (s : Defense.FlowState) (ev : Defense.Event)
    (ctx : Defense.Context) (pol : Defense.PolicySnapshot)
    (hev : ev.type = Defense.FLOW_RESET) :
    Defense.failureRules s ev ctx pol
      = some { next_state := .s0,
               context_mutations :=
                 [("challenge_fail_count", .intVal 0), ("seat_taken_count", .intVal 0),
                  ("hold_fail_count", .intVal 0),
                  ("last_non_security_state", .stateVal none),
                  ("is_sandboxed", .boolVal false), ("session_age", .intVal 0)],
               terminal_reason := some .reset } := by
  simp [Defense.failureRules, hev, Defense.FLOW_RESET,
    Defense.SIGNAL_TOKEN_MISMATCH, Defense.STAGE_3_CHALLENGE_FAILED,
    Defense.STAGE_5_SEAT_TAKEN, Defense.STAGE_5_HOLD_FAILED,
    Defense.DEF_BLOCKED, Defense.FLOW_ABORT, Defense.STAGE_6_PAYMENT_ABORTED]

/-- The defense transition on a FLOW_RESET event: next state S0 together with
terminal reason RESET, from any current state. -/
theorem defense_transition_flow_reset (s : Defense.FlowState) (ev : Defense.Event)
    (ctx : Defense.Context) (pol : Defense.PolicySnapshot)
    (hev : ev.type = Defense.FLOW_RESET) :
    (Defense.transition s ev ctx pol).next_state = Defense.FlowState.s0
      ∧ (Defense.transition s ev ctx pol).terminal_reason
          = some Defense.TerminalReason.reset := by
  have hsame := defense_transition_same_core s ev ctx pol
  rw [hsame.1, hsame.2.1]
  unfold Defense.transitionCore
  rw [defense_failure_rules_flow_reset s ev ctx pol hev]
  exact ⟨rfl, rfl⟩

/-- C1. The claim states that next_state == SX iff terminal_reason is present
for every TransitionResult, with violating constructions raising, on both the
Attack and the Defense side. The Defense side falsifies it (see the
counterexample); this theorem is the amended claim: (1) Attack construction
succeeds exactly when the invariant holds, so (2) every result the Attack
transition returns satisfies it, and (3) the Attack transition constructs
without raising whenever the snapshot does not record SX as the return-to
state; on the Defense side there is no construction check and the invariant
holds (4) only away from state SX and FLOW_RESET events, while (5) FLOW_RESET
returns next_state S0 together with terminal_reason RESET. -/
theorem c1_terminal_reason_iff_amended :
    (∀ (ns : Attack.State) (tr : Option Attack.TerminalReason)
        (fc : Option String) (notes : List String),
      (Attack.mkTransitionResult ns tr fc notes).isOk = true
        ↔ (ns = Attack.State.sxTerminal ↔ tr.isSome))
    ∧ (∀ (s : Attack.State) (ev : Attack.SemanticEvent)
        (pol : Attack.PolicySnapshot) (snap : Attack.StateSnapshot)
        (r : Attack.TransitionResult),
      Attack.transitionChecked s ev pol snap = .ok r → r.terminalConsistent)
    ∧ (∀ (s : Attack.State) (ev : Attack.SemanticEvent)
        (pol : Attack.PolicySnapshot) (snap : Attack.StateSnapshot),
      snap.last_non_security_state ≠ some Attack.State.sxTerminal →
        (Attack.transitionChecked s ev pol snap).isOk = true)
    ∧ (∀ (s : Defense.FlowState) (ev : Defense.Event)
        (ctx : Defense.Context) (pol : Defense.PolicySnapshot),
      s ≠ Defense.FlowState.sx → ev.type ≠ Defense.FLOW_RESET →
        (Defense.transition s ev ctx pol).terminalConsistent)
    ∧ (∀ (s : Defense.FlowState) (ev : Defense.Event)
        (ctx : Defense.Context) (pol : Defense.PolicySnapshot),
      ev.type = Defense.FLOW_RESET →
        (Defense.transition s ev ctx pol).next_state = Defense.FlowState.s0
          ∧ (Defense.transition s ev ctx pol).terminal_reason
              = some Defense.TerminalReason.reset) := by
  refine ⟨mkTransitionResult_isOk_iff, ?_, ?_, ?_, ?_⟩
  · intro s ev pol snap r h
    exact mkTransitionResult_ok_consistent h
  · intro s ev pol snap hlnss
    have hcons := attack_transition_consistent s ev pol snap hlnss
    unfold Attack.transitionChecked
    exact (mkTransitionResult_isOk_iff _ _ _ _).mpr hcons
  · exact defense_transition_consistent
  · exact defense_transition_flow_reset

/-- C1 counterexample: the Defense transition on FLOW_RESET produces a
TransitionResult whose next_state is the non-terminal S0 while a
terminal_reason (RESET) is present, and no error is raised, refuting the
claimed iff for Defense-produced results. -/
theorem c1_flow_reset_counterexample :
    ¬ (Defense.transition Defense.FlowState.s1 (mkDefenseEvent Defense.FLOW_RESET)
         {} {}).terminalConsistent
    ∧ (Defense.transition Defense.FlowState.s1 (mkDefenseEvent Defense.FLOW_RESET)
         {} {}).next_state = Defense.FlowState.s0
    ∧ (Defense.transition Defense.FlowState.s1 (mkDefenseEvent Defense.FLOW_RESET)
         {} {}).terminal_reason = some Defense.TerminalReason.reset := by
  decide

/-- C1 witness: the amended theorem applied at concrete inputs, discharging
each hypothesis. -/
theorem c1_witness :
    (Attack.transitionChecked Attack.State.s2QueueEntry
        (mkAttackEvent "QUEUE_PASSED") samplePolicy sampleSnapS2).isOk = true
    ∧ (Defense.transition Defense.FlowState.s1
        (mkDefenseEvent Defense.FLOW_START) {} {}).terminalConsistent
    ∧ (Defense.transition Defense.FlowState.s1
        (mkDefenseEvent Defense.FLOW_RESET) {} {}).next_state
          = Defense.FlowState.s0 :=
  ⟨c1_terminal_reason_iff_amended.2.2.1 _ _ _ _ (by decide),
   c1_terminal_reason_iff_amended.2.2.2.1 _ _ _ _ (by decide) (by decide),
   (c1_terminal_reason_iff_amended.2.2.2.2 _ _ _ _ (by decide)).1⟩

/-- C2. The claim says COOLDOWN_TRIGGERED is a global terminal event mapping
every non-terminal state to (SX, COOLDOWN), like SESSION_EXPIRED to
(SX, RESET), FATAL_ERROR to (SX, ABORT, failure_code) and POLICY_ABORT to
(SX, ABORT). The source transition function has no COOLDOWN_TRIGGERED branch:
evaluated in S2 the event is ignored and the state kept (conjuncts 1 and 2),
although the three other global terminal events behave as claimed (remaining
conjuncts). The repo test suites assert the claimed (SX, COOLDOWN) behaviour,
so this is a divergence of the code from its own tests. -/
theorem c2_cooldown_triggered_not_terminal :
    (Attack.transition .s2QueueEntry (mkAttackEvent "COOLDOWN_TRIGGERED")
        samplePolicy sampleSnapS2).next_state = Attack.State.s2QueueEntry
    ∧ (Attack.transition .s2QueueEntry (mkAttackEvent "COOLDOWN_TRIGGERED")
        samplePolicy sampleSnapS2).terminal_reason = none
    ∧ (Attack.transition .s2QueueEntry (mkAttackEvent "SESSION_EXPIRED")
        samplePolicy sampleSnapS2).next_state = Attack.State.sxTerminal
    ∧ (Attack.transition .s2QueueEntry (mkAttackEvent "SESSION_EXPIRED")
        samplePolicy sampleSnapS2).terminal_reason = some Attack.TerminalReason.reset
    ∧ (Attack.transition .s2QueueEntry
        ⟨"FATAL_ERROR", none, some "F_SERVER_ERROR"⟩
        samplePolicy sampleSnapS2).next_state = Attack.State.sxTerminal
    ∧ (Attack.transition .s2QueueEntry
        ⟨"FATAL_ERROR", none, some "F_SERVER_ERROR"⟩
        samplePolicy sampleSnapS2).terminal_reason = some Attack.TerminalReason.abort
    ∧ (Attack.transition .s2QueueEntry
        ⟨"FATAL_ERROR", none, some "F_SERVER_ERROR"⟩
        samplePolicy sampleSnapS2).failure_code = some "F_SERVER_ERROR"
    ∧ (Attack.transition .s2QueueEntry (mkAttackEvent "POLICY_ABORT")
        samplePolicy sampleSnapS2).next_state = Attack.State.sxTerminal
    ∧ (Attack.transition .s2QueueEntry (mkAttackEvent "POLICY_ABORT")
        samplePolicy sampleSnapS2).terminal_reason = some Attack.TerminalReason.abort := by
  decide

/-- The seven-event happy-path list of spec scenario E1. -/
def happyPathEvents : List Attack.SemanticEvent :=
  [mkAttackEvent "FLOW_START", mkAttackEvent "ENTRY_ENABLED",
   mkAttackEvent "QUEUE_PASSED", mkAttackEvent "SECTION_SELECTED",
   mkAttackEvent "SEAT_SELECTED", mkAttackEvent "HOLD_ACQUIRED",
   mkAttackEvent "PAYMENT_COMPLETED"]

/-- A fresh attack snapshot at S0 with the budgets of the failure-path
integration fixture. -/
def sampleSnapS0 : Attack.StateSnapshot :=
  ⟨.s0Init, none, [("N_seat", 2), ("retry", 3)], [], 0⟩

/-- C3. The claim describes the budget-drain overlay of the orchestrator: with
a failure matrix, k+1 failure events exhaust a budget that starts at k, the
flow rerouting to recover_path while budget remains and to the stop-condition
fallback afterwards. The source cannot execute any of this: as soon as a
failure matrix is passed, the run_events loop body evaluates event.type.value
on the attack SemanticEvent, which only defines event_type, so every handled
event raises AttributeError (uncaught, since the guard catches ValueError
only); conjunct 1 shows the first event of a run already fails. Conjunct 2
shows the matrix rule the claim relies on is present (seat-taken at S5 keyed
to budget N_seat), and conjunct 3 shows the same run without a matrix
completes normally, isolating the crash to the matrix path. -/
theorem c3_failure_matrix_run_crashes :
    Attack.runEvents happyPathEvents sampleSnapS0 samplePolicy true
      = .error (.attributeError "SemanticEvent object has no attribute type")
    ∧ Attack.getFailurePolicy .s5Seat "SEAT_TAKEN"
      = some { failure_code := "F_SEAT_TAKEN", primary_action := "pick another seat",
               recover_path := .state .s5Seat, retry_budget_key := some "N_seat",
               backoff_strategy := "jitter + short wait",
               stop_condition := some "N_seat exhausted -> S4" }
    ∧ Attack.runEvents happyPathEvents sampleSnapS0 samplePolicy false
      = .ok ⟨[.s0Init, .s1PreEntry, .s2QueueEntry, .s4Section, .s5Seat,
              .s6Transaction, .sxTerminal],
             .sxTerminal, .done, 7, 0, [("N_seat", 2), ("retry", 3)], []⟩ := by
  refine ⟨rfl, by decide, rfl⟩

/-- C4. Return-to bookkeeping through the orchestrator loop body: (1) a
security interrupt (CHALLENGE_DETECTED or DEF_CHALLENGE_FORCED) from an
interruptible state s moves the flow to S3 and records s as
last_non_security_state; (2) while the flow is in S3 no step rewrites
last_non_security_state; (3) CHALLENGE_PASSED or CHALLENGE_NOT_PRESENT in S3
returns the flow to the recorded state; (4) with no recorded state it falls
back to S1. -/
theorem c4_return_to_last_non_security :
    (∀ (snap : Attack.StateSnapshot) (pol : Attack.PolicySnapshot)
        (ev : Attack.SemanticEvent),
      snap.current_state.can_be_last_non_security = true →
      (ev.event_type = "CHALLENGE_DETECTED" ∨ ev.event_type = "DEF_CHALLENGE_FORCED") →
        (Attack.orchestratorStep snap ev pol).2.current_state = Attack.State.s3Security
        ∧ (Attack.orchestratorStep snap ev pol).2.last_non_security_state
            = some snap.current_state)
    ∧ (∀ (snap : Attack.StateSnapshot) (pol : Attack.PolicySnapshot)
        (ev : Attack.SemanticEvent),
      snap.current_state = Attack.State.s3Security →
        (Attack.orchestratorStep snap ev pol).2.last_non_security_state
          = snap.last_non_security_state)
    ∧ (∀ (snap : Attack.StateSnapshot) (pol : Attack.PolicySnapshot)
        (ev : Attack.SemanticEvent) (s : Attack.State),
      snap.current_state = Attack.State.s3Security →
      snap.last_non_security_state = some s →
      (ev.event_type = "CHALLENGE_PASSED" ∨ ev.event_type = "CHALLENGE_NOT_PRESENT") →
        (Attack.orchestratorStep snap ev pol).2.current_state = s)
    ∧ (∀ (snap : Attack.StateSnapshot) (pol : Attack.PolicySnapshot)
        (ev : Attack.SemanticEvent),
      snap.current_state = Attack.State.s3Security →
      snap.last_non_security_state = none →
      (ev.event_type = "CHALLENGE_PASSED" ∨ ev.event_type = "CHALLENGE_NOT_PRESENT") →
        (Attack.orchestratorStep snap ev pol).2.current_state
          = Attack.State.s1PreEntry) := by
  refine ⟨?_, ?_, ?_, ?_⟩
  · intro snap pol ev hcan hev
    rcases hev with hev | hev <;>
      simp [Attack.orchestratorStep, Attack.transition, hev, hcan,
        Attack.State.is_security]
  · intro snap pol ev h3
    simp [Attack.orchestratorStep, h3, Attack.State.can_be_last_non_security]
  · intro snap pol ev s h3 hlnss hev
    rcases hev with hev | hev <;>
      simp [Attack.orchestratorStep, Attack.transition, Attack.handleS3Transition,
        hev, h3, hlnss, Attack.State.can_be_last_non_security]
  · intro snap pol ev h3 hlnss hev
    rcases hev with hev | hev <;>
      simp [Attack.orchestratorStep, Attack.transition, Attack.handleS3Transition,
        hev, h3, hlnss, Attack.State.can_be_last_non_security]

/-- C4 witness: the interrupt-then-pass pair of steps at concrete inputs. -/
theorem c4_witness :
    (Attack.orchestratorStep
        ⟨.s4Section, none, [], [], 0⟩ (mkAttackEvent "DEF_CHALLENGE_FORCED")
        samplePolicy).2.current_state = Attack.State.s3Security
    ∧ (Attack.orchestratorStep
        ⟨.s3Security, some .s4Section, [], [], 0⟩ (mkAttackEvent "CHALLENGE_PASSED")
        samplePolicy).2.current_state = Attack.State.s4Section
    ∧ (Attack.orchestratorStep
        ⟨.s3Security, none, [], [], 0⟩ (mkAttackEvent "CHALLENGE_PASSED")
        samplePolicy).2.current_state = Attack.State.s1PreEntry :=
  ⟨(c4_return_to_last_non_security.1 _ samplePolicy _ (by decide) (Or.inr rfl)).1,
   c4_return_to_last_non_security.2.2.1 _ samplePolicy _ _ rfl rfl (Or.inl rfl),
   c4_return_to_last_non_security.2.2.2 _ samplePolicy _ rfl rfl (Or.inl rfl)⟩

/-- C5. In S3, CHALLENGE_FAILED keeps the flow in S3 exactly while
counters[CHALLENGE_FAILED]+1 is below the N_challenge rule (default 1);
otherwise the transition is terminal with the reason mapped from the
challenge_fail_policy rule (cooldown and reset by name, ABORT for any other
value or when the rule is absent) and failure code
CHALLENGE_BUDGET_EXHAUSTED. -/
theorem c5_challenge_failed_budget (pol : Attack.PolicySnapshot)
    (snap : Attack.StateSnapshot) (ev : Attack.SemanticEvent)
    (hev : ev.event_type = "CHALLENGE_FAILED") :
    (Attack.dictGet snap.counters "CHALLENGE_FAILED" 0 + 1
        < pol.getIntRule "N_challenge" 1 →
      (Attack.transition .s3Security ev pol snap).next_state
          = Attack.State.s3Security
      ∧ (Attack.transition .s3Security ev pol snap).terminal_reason = none)
    ∧ (¬ (Attack.dictGet snap.counters "CHALLENGE_FAILED" 0 + 1
        < pol.getIntRule "N_challenge" 1) →
      (Attack.transition .s3Security ev pol snap).next_state
          = Attack.State.sxTerminal
      ∧ (Attack.transition .s3Security ev pol snap).terminal_reason
          = some (if pol.getStrRule "challenge_fail_policy" "abort" = "cooldown"
                  then .cooldown
                  else if pol.getStrRule "challenge_fail_policy" "abort" = "reset"
                  then .reset
                  else .abort)
      ∧ (Attack.transition .s3Security ev pol snap).failure_code
          = some "CHALLENGE_BUDGET_EXHAUSTED") := by
  constructor
  · intro hlt
    simp [Attack.transition, Attack.handleS3Transition, hev,
      Attack.State.can_be_last_non_security, hlt]
  · intro hge
    simp [Attack.transition, Attack.handleS3Transition, hev,
      Attack.State.can_be_last_non_security, hge]

/-- C5 witness: one failure against the default budget of 1 is terminal with
reason ABORT; with budget 2 and a cooldown rule the first failure stays in S3
and an exhausted budget yields COOLDOWN. -/
theorem c5_witness :
    ((Attack.transition .s3Security (mkAttackEvent "CHALLENGE_FAILED")
        samplePolicy ⟨.s3Security, none, [], [], 0⟩).next_state
      = Attack.State.sxTerminal)
    ∧ ((Attack.transition .s3Security (mkAttackEvent "CHALLENGE_FAILED")
        ⟨"default", [("N_challenge", .intVal 2),
          ("challenge_fail_policy", .strVal "cooldown")]⟩
        ⟨.s3Security, none, [], [], 0⟩).next_state = Attack.State.s3Security)
    ∧ ((Attack.transition .s3Security (mkAttackEvent "CHALLENGE_FAILED")
        ⟨"default", [("N_challenge", .intVal 2),
          ("challenge_fail_policy", .strVal "cooldown")]⟩
        ⟨.s3Security, none, [], [("CHALLENGE_FAILED", 1)], 0⟩).terminal_reason
      = some Attack.TerminalReason.cooldown) := by
  refine ⟨?_, ?_, ?_⟩
  · exact ((c5_challenge_failed_budget samplePolicy
      ⟨.s3Security, none, [], [], 0⟩ (mkAttackEvent "CHALLENGE_FAILED") rfl).2
      (by decide)).1
  · exact ((c5_challenge_failed_budget
      ⟨"default", [("N_challenge", .intVal 2),
        ("challenge_fail_policy", .strVal "cooldown")]⟩
      ⟨.s3Security, none, [], [], 0⟩ (mkAttackEvent "CHALLENGE_FAILED") rfl).1
      (by decide)).1
  · have h := ((c5_challenge_failed_budget
      ⟨"default", [("N_challenge", .intVal 2),
        ("challenge_fail_policy", .strVal "cooldown")]⟩
      ⟨.s3Security, none, [], [("CHALLENGE_FAILED", 1)], 0⟩
      (mkAttackEvent "CHALLENGE_FAILED") rfl).2 (by decide)).2.1
    simpa using h

/-! Helper lemmas on the risk controller. -/

/-- The R-4 decay condition as a proposition. -/
theorem shouldDecay_iff (cur : Defense.DefenseTier) (flow : Defense.FlowState)
    (ev : Defense.Event) :
    Defense.shouldDecay cur flow ev = true
      ↔ (Defense.DefenseTier.t2.rank ≤ cur.rank ∧ flow = Defense.FlowState.s3
          ∧ ev.type = Defense.STAGE_3_CHALLENGE_PASSED) := by
  unfold Defense.shouldDecay
  simp [and_assoc]

/-- The first component of the emission step is always the target tier. -/
theorem tierResult_fst (cur t : Defense.DefenseTier) (ev : Defense.Event) :
    (Defense.tierResult cur t ev).1 = t := by
  unfold Defense.tierResult
  split
  · rfl
  · rename_i h
    exact (not_not.mp h).symm

/-- The emission step emits exactly when the target differs. -/
theorem tierResult_emits_iff (cur t : Defense.DefenseTier) (ev : Defense.Event) :
    (Defense.tierResult cur t ev).2.isSome ↔ (Defense.tierResult cur t ev).1 ≠ cur := by
  unfold Defense.tierResult
  split
  · rename_i h
    simpa using h
  · rename_i h
    simp_all

/-- Whatever the emission step emits is the tier-updated event. -/
theorem tierResult_event (cur t : Defense.DefenseTier) (ev x : Defense.Event)
    (hx : (Defense.tierResult cur t ev).2 = some x) :
    x = Defense.createTierUpdatedEvent cur t ev := by
  unfold Defense.tierResult at hx
  split at hx
  · injection hx with hx
    exact hx.symm
  · exact Option.noConfusion hx

/-- Under the decay condition decide_tier returns T1. -/
theorem decideTier_decay (e : Defense.EvidenceState) (cur : Defense.DefenseTier)
    (flow : Defense.FlowState) (ev : Defense.Event)
    (h : Defense.shouldDecay cur flow ev = true) :
    (Defense.decideTier e cur flow ev).1 = Defense.DefenseTier.t1 := by
  unfold Defense.decideTier
  rw [h]
  simp only [if_true]
  exact tierResult_fst cur _ ev

/-- Without decay the returned tier never ranks below the current tier. -/
theorem decideTier_mono (e : Defense.EvidenceState) (cur : Defense.DefenseTier)
    (flow : Defense.FlowState) (ev : Defense.Event)
    (h : Defense.shouldDecay cur flow ev = false) :
    cur.rank ≤ (Defense.decideTier e cur flow ev).1.rank := by
  unfold Defense.decideTier
  rw [h]
  simp only [Bool.false_eq_true, if_false]
  rw [tierResult_fst]
  by_cases hlt : (Defense.evaluateEscalationRules e).rank < cur.rank
  · rw [if_pos hlt]
  · rw [if_neg hlt]
    exact le_of_not_lt hlt

/-- A RISK_TIER_UPDATED event is emitted exactly when the tier changed. -/
theorem decideTier_emits_iff (e : Defense.EvidenceState) (cur : Defense.DefenseTier)
    (flow : Defense.FlowState) (ev : Defense.Event) :
    (Defense.decideTier e cur flow ev).2.isSome
      ↔ (Defense.decideTier e cur flow ev).1 ≠ cur := by
  unfold Defense.decideTier
  exact tierResult_emits_iff cur _ ev

/-- Any emitted event has type RISK_TIER_UPDATED. -/
theorem decideTier_event_type (e : Defense.EvidenceState) (cur : Defense.DefenseTier)
    (flow : Defense.FlowState) (ev : Defense.Event) (x : Defense.Event)
    (hx : (Defense.decideTier e cur flow ev).2 = some x) :
    x.type = Defense.RISK_TIER_UPDATED := by
  unfold Defense.decideTier at hx
  rw [tierResult_event cur _ ev x hx]
  rfl

/-- C6. decide_tier never returns a tier ranking below the current tier
except under the R-4 decay condition (current at least T2, flow state S3,
event STAGE_3_CHALLENGE_PASSED), where it returns exactly T1; and it emits an
event exactly when the returned tier differs from the current one, that event
being RISK_TIER_UPDATED. -/
theorem c6_tier_monotone (e : Defense.EvidenceState) (cur : Defense.DefenseTier)
    (flow : Defense.FlowState) (ev : Defense.Event) :
    (¬ (Defense.DefenseTier.t2.rank ≤ cur.rank ∧ flow = Defense.FlowState.s3
          ∧ ev.type = Defense.STAGE_3_CHALLENGE_PASSED) →
        cur.rank ≤ (Defense.decideTier e cur flow ev).1.rank)
    ∧ ((Defense.DefenseTier.t2.rank ≤ cur.rank ∧ flow = Defense.FlowState.s3
          ∧ ev.type = Defense.STAGE_3_CHALLENGE_PASSED) →
        (Defense.decideTier e cur flow ev).1 = Defense.DefenseTier.t1)
    ∧ ((Defense.decideTier e cur flow ev).2.isSome
        ↔ (Defense.decideTier e cur flow ev).1 ≠ cur)
    ∧ (∀ x, (Defense.decideTier e cur flow ev).2 = some x →
        x.type = Defense.RISK_TIER_UPDATED) := by
  refine ⟨?_, ?_, decideTier_emits_iff e cur flow ev, ?_⟩
  · intro hnot
    have hd : Defense.shouldDecay cur flow ev = false := by
      rcases h : Defense.shouldDecay cur flow ev with _ | _
      · rfl
      · exact absurd ((shouldDecay_iff cur flow ev).mp h) hnot
    exact decideTier_mono e cur flow ev hd
  · intro hyes
    exact decideTier_decay e cur flow ev ((shouldDecay_iff cur flow ev).mpr hyes)
  · exact decideTier_event_type e cur flow ev

/-- C6 witness: at T0 with fresh evidence and a neutral event the tier stays
T0 with no emission; from T2 in S3 on CHALLENGE_PASSED it decays to T1 and
emits a RISK_TIER_UPDATED event. -/
theorem c6_witness :
    Defense.DefenseTier.t0.rank
      ≤ (Defense.decideTier {} .t0 .s1 (mkDefenseEvent Defense.FLOW_START)).1.rank
    ∧ (Defense.decideTier {} .t2 .s3
        (mkDefenseEvent Defense.STAGE_3_CHALLENGE_PASSED)).1 = Defense.DefenseTier.t1 :=
  ⟨(c6_tier_monotone {} .t0 .s1 (mkDefenseEvent Defense.FLOW_START)).1 (by decide),
   (c6_tier_monotone {} .t2 .s3
      (mkDefenseEvent Defense.STAGE_3_CHALLENGE_PASSED)).2.1 (by decide)⟩

/-- C9. The decay override beats every escalation rule: even with
token_mismatch_detected set (or the challenge-fail count at the threshold),
which alone would force T3, the decay conditions return T1. -/
theorem c9_decay_overrides_escalation (e : Defense.EvidenceState)
    (cur : Defense.DefenseTier) (flow : Defense.FlowState) (ev : Defense.Event)
    (_hesc : e.token_mismatch_detected = true ∨ 3 ≤ e.challenge_fail_count)
    (hcur : Defense.DefenseTier.t2.rank ≤ cur.rank)
    (hflow : flow = Defense.FlowState.s3)
    (hev : ev.type = Defense.STAGE_3_CHALLENGE_PASSED) :
    (Defense.decideTier e cur flow ev).1 = Defense.DefenseTier.t1 :=
  decideTier_decay e cur flow ev
    ((shouldDecay_iff cur flow ev).mpr ⟨hcur, hflow, hev⟩)

/-- C9 witness: token mismatch plus decay conditions at concrete inputs. -/
theorem c9_witness :
    (Defense.decideTier { token_mismatch_detected := true } .t3 .s3
        (mkDefenseEvent Defense.STAGE_3_CHALLENGE_PASSED)).1
      = Defense.DefenseTier.t1 :=
  c9_decay_overrides_escalation { token_mismatch_detected := true } .t3 .s3
    (mkDefenseEvent Defense.STAGE_3_CHALLENGE_PASSED)
    (Or.inl rfl) (by decide) rfl rfl

/-- C7. S6 protection in the planner: below T3 the plan for flow state S6 is
empty for every evidence state; at T3 it is exactly one BLOCK action. -/
theorem c7_s6_protection (tier : Defense.DefenseTier) (e : Defense.EvidenceState) :
    (tier.rank < Defense.DefenseTier.t3.rank →
      Defense.planActions tier .s6 e = [])
    ∧ Defense.planActions .t3 .s6 e
        = [⟨"BLOCK", [("reason", "tier_t3")]⟩] := by
  constructor
  · intro hlt
    cases tier with
    | t0 => rfl
    | t1 => rfl
    | t2 => rfl
    | t3 => exact absurd hlt (by decide)
  · rfl

/-- C7 witness: the theorem at T1 (below T3). -/
theorem c7_witness : Defense.planActions .t1 .s6 { seat_taken_streak := 9 } = [] :=
  (c7_s6_protection .t1 { seat_taken_streak := 9 }).1 (by decide)

/-- C10. The S5-streak rule fires at every tier: outside S6, a seat-taken
streak of at least 7 puts a strong THROTTLE in the plan; at T0, whose
baseline tier matrix plans nothing, the plan is exactly that one action. -/
theorem c10_s5_streak_any_tier (tier : Defense.DefenseTier)
    (flow : Defense.FlowState) (e : Defense.EvidenceState)
    (hflow : flow ≠ Defense.FlowState.s6)
    (hstreak : 7 ≤ e.seat_taken_streak) :
    (Defense.PlannedAction.mk "THROTTLE" [("strength", "strong")]
        ∈ Defense.planActions tier flow e)
    ∧ Defense.planActions .t0 flow e
        = [⟨"THROTTLE", [("strength", "strong")]⟩] := by
  have hs : (flow == Defense.FlowState.s6) = false := by
    simpa using hflow
  constructor
  · cases tier <;>
      simp [Defense.planActions, hs, hstreak, Defense.applyTierMatrix,
        Defense.applyS5StreakRule, Defense.paramGetD]
  · simp [Defense.planActions, hs, hstreak, Defense.applyTierMatrix,
      Defense.applyS5StreakRule]

/-- C10 witness: tier T3 in S5 with a streak of 8 plans a strong THROTTLE
alongside the BLOCK, and tier T0 plans exactly the strong THROTTLE. -/
theorem c10_witness :
    (Defense.PlannedAction.mk "THROTTLE" [("strength", "strong")]
        ∈ Defense.planActions .t3 .s5 { seat_taken_streak := 8 })
    ∧ Defense.planActions .t0 .s5 { seat_taken_streak := 8 }
        = [⟨"THROTTLE", [("strength", "strong")]⟩] :=
  ⟨(c10_s5_streak_any_tier .t3 .s5 { seat_taken_streak := 8 }
      (by decide) (by decide)).1,
   (c10_s5_streak_any_tier .t0 .s5 { seat_taken_streak := 8 }
      (by decide) (by decide)).2⟩

/-! Ring-buffer invariant of the signal aggregator. -/

/-- ringAppend keeps the length bound of 10. -/
theorem ringAppend_length_le (h : List String) (s : String)
    (hlen : h.length ≤ 10) : (Defense.ringAppend h s).length ≤ 10 := by
  unfold Defense.ringAppend
  split
  all_goals
    simp only [List.length_append, List.length_drop, List.length_singleton]
    omega

/-- ringAppend only adds the appended element. -/
theorem ringAppend_mem (h : List String) (s x : String)
    (hx : x ∈ Defense.ringAppend h s) : x ∈ h ∨ x = s := by
  unfold Defense.ringAppend at hx
  split at hx
  all_goals
    rcases List.mem_append.mp hx with hx | hx
    · first
        | exact Or.inl hx
        | exact Or.inl (List.mem_of_mem_drop hx)
    · exact Or.inr (List.mem_singleton.mp hx)

/-- The signal history after process_event: a ring append of the type of a
SIGNAL_-prefixed event, otherwise unchanged (the counter and flag updates of
the earlier branches never touch the history). -/
theorem processEvent_history (e : Defense.EvidenceState) (ev : Defense.Event) :
    (Defense.processEvent e ev).signal_history
      = (if ev.type.startsWith "SIGNAL_"
         then Defense.ringAppend e.signal_history ev.type
         else e.signal_history) := by
  simp only [Defense.processEvent]
  repeat' split
  all_goals rfl

/-- The evidence invariant of claim C8: the history holds at most 10 entries,
all with the SIGNAL_ prefix. -/
def evidenceInv (e : Defense.EvidenceState) : Prop :=
  e.signal_history.length ≤ 10
    ∧ ∀ s ∈ e.signal_history, s.startsWith "SIGNAL_"

/-- process_event preserves the evidence invariant. -/
theorem processEvent_inv (e : Defense.EvidenceState) (ev : Defense.Event)
    (h : evidenceInv e) : evidenceInv (Defense.processEvent e ev) := by
  obtain ⟨hlen, hmem⟩ := h
  unfold evidenceInv
  rw [processEvent_history]
  split
  · rename_i hsig
    refine ⟨ringAppend_length_le _ _ hlen, ?_⟩
    intro x hx
    rcases ringAppend_mem _ _ _ hx with hx | hx
    · exact hmem x hx
    · subst hx
      exact hsig
  · exact ⟨hlen, hmem⟩

/-- Folding process_event preserves the evidence invariant. -/
theorem foldl_processEvent_inv (events : List Defense.Event)
    (e : Defense.EvidenceState) (h : evidenceInv e) :
    evidenceInv (events.foldl Defense.processEvent e) := by
  induction events generalizing e with
  | nil => exact h
  | cons ev rest ih =>
      rw [List.foldl_cons]
      exact ih _ (processEvent_inv e ev h)

/-- C8. After any event sequence processed from a fresh EvidenceState, the
signal history holds at most 10 entries, and every entry is the type of a
SIGNAL_-prefixed event (ringAppend drops the oldest entry once full, see
ringAppend_length_le and ringAppend_mem). -/
theorem c8_signal_history_ring_bound (events : List Defense.Event) :
    ((events.foldl Defense.processEvent {}).signal_history.length ≤ 10)
    ∧ ∀ s ∈ (events.foldl Defense.processEvent {}).signal_history,
        s.startsWith "SIGNAL_" :=
  foldl_processEvent_inv events {} ⟨by simp, by simp⟩

/-- C8 witness: twelve SIGNAL events and one non-SIGNAL event from a fresh
state leave exactly 10 entries, the first two having been overwritten. -/
theorem c8_witness :
    ((List.replicate 12 (mkDefenseEvent Defense.SIGNAL_REPETITIVE_PATTERN)
        ++ [mkDefenseEvent Defense.FLOW_START]).foldl
          Defense.processEvent {}).signal_history.length ≤ 10 :=
  (c8_signal_history_ring_bound
    (List.replicate 12 (mkDefenseEvent Defense.SIGNAL_REPETITIVE_PATTERN)
      ++ [mkDefenseEvent Defense.FLOW_START])).1
